import Mathlib

/- Shallow embedding of src/quantum_circuit_engine.py, the Q.U.A.S.A.R
quantum circuit engine.  Python strings are modelled as lists of character
code points (ASCII fragment), raised exceptions as Except errors, and each
try/except block of the source as a catch on the Except value.  Calls into
the external quantum library and the plotting library are modelled from the
spec where noted; everything else is translated from the source. -/

/-- A Python exception kind, as far as this engine distinguishes them. -/
inductive PyError where
  | attributeError
  | circuitError
  | valueError
  | typeError
deriving DecidableEq

/-- One appended gate instruction, as recorded in circuit.data. -/
inductive GateOp where
  | h (target : Int)
  | x (target : Int)
  | y (target : Int)
  | z (target : Int)
  | cx (control : Int) (target : Int)
deriving DecidableEq

/-- Modelled from the spec: the circuit handle of the external library.
The engine only reads its qubit count, gate count and depth, and appends
gates to it. -/
structure QuantumCircuit where
  num_qubits : Int
  data : List GateOp
deriving DecidableEq

/-- Modelled from the spec: the external library append of the Hadamard
gate, circuit.h(target). It raises a circuit error when the operand is
outside [0, num_qubits), the operand invariant of the spec data model. -/
def QuantumCircuit.hGate (c : QuantumCircuit) (target : Int) : Except PyError QuantumCircuit :=
  if 0 ≤ target ∧ target < c.num_qubits then .ok { c with data := c.data ++ [GateOp.h target] }
  else .error .circuitError

/-- Modelled from the spec: circuit.x(target) of the external library. -/
def QuantumCircuit.xGate (c : QuantumCircuit) (target : Int) : Except PyError QuantumCircuit :=
  if 0 ≤ target ∧ target < c.num_qubits then .ok { c with data := c.data ++ [GateOp.x target] }
  else .error .circuitError

/-- Modelled from the spec: circuit.y(target) of the external library. -/
def QuantumCircuit.yGate (c : QuantumCircuit) (target : Int) : Except PyError QuantumCircuit :=
  if 0 ≤ target ∧ target < c.num_qubits then .ok { c with data := c.data ++ [GateOp.y target] }
  else .error .circuitError

/-- Modelled from the spec: circuit.z(target) of the external library. -/
def QuantumCircuit.zGate (c : QuantumCircuit) (target : Int) : Except PyError QuantumCircuit :=
  if 0 ≤ target ∧ target < c.num_qubits then .ok { c with data := c.data ++ [GateOp.z target] }
  else .error .circuitError

/-- Modelled from the spec: circuit.cx(control, target) of the external
library.  Both operands must lie in [0, num_qubits) and, per the spec data
model invariant for two-qubit gates, control must differ from target;
otherwise the library raises a circuit error. -/
def QuantumCircuit.cxGate (c : QuantumCircuit) (control target : Int) : Except PyError QuantumCircuit :=
  if (0 ≤ control ∧ control < c.num_qubits) ∧ (0 ≤ target ∧ target < c.num_qubits)
      ∧ control ≠ target then
    .ok { c with data := c.data ++ [GateOp.cx control target] }
  else .error .circuitError

/-- A Python string as its list of character code points. -/
abbrev PyStr := List Nat

/-- Code point of a character. -/
def codeOf (ch : Char) : Nat := ch.toNat

/-- Code points of a Lean string literal, used to write Python strings. -/
def codes (s : String) : PyStr := s.data.map codeOf

/-- Python str.lower on one code point (ASCII fragment). -/
def lowerCode (n : Nat) : Nat := if 65 ≤ n ∧ n ≤ 90 then n + 32 else n

/-- Python str.isspace on one code point (ASCII fragment: space, tab, line
feed, vertical tab, form feed, carriage return). -/
def isSpaceCode (n : Nat) : Bool :=
  decide (n = 32 ∨ n = 9 ∨ n = 10 ∨ n = 11 ∨ n = 12 ∨ n = 13)

/-- Python str.lower (ASCII fragment). -/
def pyLower (s : PyStr) : PyStr := s.map lowerCode

/-- Python str.strip: remove leading and trailing whitespace. -/
def pyStrip (s : PyStr) : PyStr := List.rdropWhile isSpaceCode (s.dropWhile isSpaceCode)

/-- The normalization on line 38 of the source: gate_name.lower().strip(). -/
def pyNorm (s : PyStr) : PyStr := pyStrip (pyLower s)

/-- Models one try/except of the source around a library call: an exception
raised by the call is caught and the fallback value is returned instead
(lines 40 and 69 to 71 return the circuit unchanged). -/
def tryOr (r : Except PyError QuantumCircuit) (fallback : QuantumCircuit) : QuantumCircuit :=
  match r with
  | .ok c => c
  | .error _ => fallback

/-- create_circuit, source lines 23 to 34: a non-positive qubit count makes
line 27 raise ValueError, which the except block catches, returning None;
otherwise the external library builds an empty circuit of that size. -/
def create_circuit (num_qubits : Int) : Option QuantumCircuit :=
  if num_qubits ≤ 0 then none
  else some { num_qubits := num_qubits, data := [] }

/-- The gate dispatch of apply_gate, source lines 40 to 71: the body of the
try block, with gate_name already normalized.  Each library call that
raises is caught by the except block, which returns the circuit unchanged;
an unrecognized tag only prints a diagnostic and returns the circuit. -/
def dispatch (circuit : QuantumCircuit) (gate_name : PyStr) (target_qubit : Int)
    (control_qubit : Option Int) : QuantumCircuit :=
  if gate_name = codes "h" then tryOr (circuit.hGate target_qubit) circuit
  else if gate_name = codes "x" then tryOr (circuit.xGate target_qubit) circuit
  else if gate_name = codes "y" then tryOr (circuit.yGate target_qubit) circuit
  else if gate_name = codes "z" then tryOr (circuit.zGate target_qubit) circuit
  else if gate_name = codes "cx" then
    match control_qubit with
    | some control => tryOr (circuit.cxGate control target_qubit) circuit
    | none =>
      if target_qubit < circuit.num_qubits - 1 then
        tryOr (circuit.cxGate target_qubit (target_qubit + 1)) circuit
      else
        tryOr (circuit.cxGate target_qubit 0) circuit
  else circuit

/-- apply_gate, source lines 36 to 71: normalize the gate name (line 38,
which runs before the try block) and dispatch on it. -/
def apply_gate (circuit : QuantumCircuit) (gate_name : PyStr) (target_qubit : Int)
    (control_qubit : Option Int) : QuantumCircuit :=
  dispatch circuit (pyNorm gate_name) target_qubit control_qubit

/-- A Python value passed where the engine expects a string or an int. -/
inductive PyVal where
  | str (s : PyStr)
  | int (n : Int)
  | pyNone
deriving DecidableEq

/-- create_circuit on an arbitrary Python value.  The whole body sits in
the try block, so a non-int argument makes the comparison on line 26 raise
TypeError, which is caught and None returned; no exception escapes. -/
def create_circuit_checked (num_qubits : PyVal) : Except PyError (Option QuantumCircuit) :=
  .ok (match num_qubits with
    | .int n => create_circuit n
    | _ => none)

/-- apply_gate on an arbitrary Python value for gate_name and a possibly
absent circuit.  Line 38, gate_name.lower().strip(), runs before the try
block, so on a non-string value it raises AttributeError outward.  Inside
the try block every failure, including attribute access on a None circuit,
is caught and the circuit returned unchanged. -/
def apply_gate_checked (circuit : Option QuantumCircuit) (gate_name : PyVal)
    (target_qubit : Int) (control_qubit : Option Int) : Except PyError (Option QuantumCircuit) :=
  match gate_name with
  | .str s =>
    .ok (match circuit with
      | some c => some (apply_gate c s target_qubit control_qubit)
      | none => none)
  | _ => .error .attributeError

/-- The qubit operands of a recorded gate. -/
def GateOp.qubits : GateOp → List Int
  | .h t => [t]
  | .x t => [t]
  | .y t => [t]
  | .z t => [t]
  | .cx c t => [c, t]

/-- Modelled from the spec: the per-wire level map used to compute
circuit.depth() of the external library by level scheduling. -/
def depthLevels (gates : List GateOp) : Int → Nat :=
  gates.foldl
    (fun levels g =>
      let m := (g.qubits.map levels).foldr Nat.max 0 + 1
      fun q => if q ∈ g.qubits then m else levels q)
    (fun _ => 0)

/-- Modelled from the spec: circuit.depth() of the external library, the
length of the longest chain of gates that share a qubit. -/
def QuantumCircuit.depth (c : QuantumCircuit) : Nat :=
  ((List.range c.num_qubits.toNat).map (fun q => depthLevels c.data (Int.ofNat q))).foldr Nat.max 0

/-- Modelled from the spec: str(circuit), the textual diagram the external
library produces for tier 1.  Its exact ASCII layout is owned by the
library; it is modelled as a textual summary of the circuit. -/
def textDiagram (c : QuantumCircuit) : String :=
  "QuantumCircuit: " ++ toString c.num_qubits ++ " qubits, " ++ toString c.data.length ++ " gates"

/-- The behaviour of the rich-image tier, owned by the plotting library and
the circuit drawer: it either produces a png as a base64 string, or raises
before the figure of line 97 is created, or raises after it is created. -/
inductive RenderEnv where
  | ok (img_str : String)
  | failBeforeFig
  | failAfterFig
deriving DecidableEq

/-- The outcome of one visualize_circuit call: the returned artifact plus
the number of plotting figures the call left open (opened by line 97 and
never passed to plt.close). -/
structure RenderResult where
  artifact : String
  openFigures : Nat
deriving DecidableEq

/-- The html fragment of the rich-image tier, source lines 117 to 129. -/
def html_output (c : QuantumCircuit) (img_str : String) : String :=
  "<div style=\"border: 2px solid #4CAF50; padding: 15px; border-radius: 10px; background: linear-gradient(135deg, #f8f9fa, #e9ecef); margin: 10px 0;\">" ++
  "<h3 style=\"color: #2c3e50; margin-top: 0; text-align: center;\">🧪 QUASAR Quantum Circuit</h3>" ++
  "<div style=\"text-align: center; background: white; padding: 10px; border-radius: 5px;\">" ++
  "<img src=\"data:image/png;base64," ++ img_str ++
  "\" alt=\"Quantum Circuit\" style=\"max-width: 100%; border: 1px solid #ddd;\"></div>" ++
  "<div style=\"display: flex; justify-content: space-between; margin-top: 10px; font-size: 12px; color: #555;\">" ++
  "<span>🔢 <strong>Qubits:</strong> " ++ toString c.num_qubits ++
  "</span>" ++
  "<span>⚡ <strong>Gates:</strong> " ++ toString c.data.length ++
  "</span>" ++
  "<span>📐 <strong>Depth:</strong> " ++ toString c.depth ++
  "</span></div></div>"

/-- The html fragment of the text fallback tier, source lines 136 to 146. -/
def text_html (c : QuantumCircuit) (text_diagram : String) : String :=
  "<div style=\"border: 2px solid #ff9800; padding: 15px; border-radius: 10px; background: #fff3e0; margin: 10px 0;\">" ++
  "<h3 style=\"color: #e65100; margin-top: 0;\">⚠️ Quantum Circuit (Text View)</h3>" ++
  "<pre style=\"background: white; padding: 15px; border-radius: 5px; border: 1px solid #ffcc80; overflow-x: auto; font-family: Courier New, monospace;\">" ++
  text_diagram ++
  "</pre>" ++
  "<div style=\"display: flex; justify-content: space-between; margin-top: 10px; font-size: 12px; color: #555;\">" ++
  "<span>🔢 <strong>Qubits:</strong> " ++ toString c.num_qubits ++
  "</span>" ++
  "<span>⚡ <strong>Gates:</strong> " ++ toString c.data.length ++
  "</span>" ++
  "<span>📐 <strong>Depth:</strong> " ++ toString c.depth ++
  "</span></div></div>"

/-- visualize_circuit, source lines 73 to 152.  A None circuit
short-circuits with a plain error string before any tier runs.  Otherwise
tier 1 computes the text diagram; tier 2 attempts the plotting library,
whose behaviour is the RenderEnv argument.  On tier-2 success the figure is
closed (line 112) and the image html returned.  On tier-2 failure the
except block of line 132 returns the tier-3 text html; it never calls
plt.close, so a figure created before the failure point stays open.  The
outer except of line 149 is unreachable for the inputs representable
here. -/
def visualize_circuit (circuit : Option QuantumCircuit) (env : RenderEnv) : RenderResult :=
  match circuit with
  | none => { artifact := "❌ No circuit to visualize", openFigures := 0 }
  | some c =>
    let text_diagram := textDiagram c
    match env with
    | .ok img_str => { artifact := html_output c img_str, openFigures := 0 }
    | .failBeforeFig => { artifact := text_html c text_diagram, openFigures := 0 }
    | .failAfterFig => { artifact := text_html c text_diagram, openFigures := 1 }

/-- Whether an engine call lets an exception escape to the caller. -/
def raisesOutward (r : Except PyError (Option QuantumCircuit)) : Bool :=
  match r with
  | .ok _ => false
  | .error _ => true

/-- The string s contains sub as a contiguous substring. -/
def strContains (s sub : String) : Prop := ∃ l r, s = l ++ sub ++ r

theorem strContains_here (x sub : String) : strContains (x ++ sub) sub := by
  refine ⟨x, "", ?_⟩
  rw [String.append_empty]

theorem strContains_appendl {s sub : String} (a : String) (hs : strContains s sub) :
    strContains (s ++ a) sub := by
  obtain ⟨l, r, hlr⟩ := hs
  refine ⟨l, r ++ a, ?_⟩
  rw [hlr]
  simp [String.append_assoc]

theorem length_pos_left (a b : String) (ha : 0 < a.length) : 0 < (a ++ b).length := by
  rw [String.length_append]
  omega
theorem lowerCode_idem (n : Nat) : lowerCode (lowerCode n) = lowerCode n := by
  unfold lowerCode
  by_cases hn : 65 ≤ n ∧ n ≤ 90
  · rw [if_pos hn, if_neg (by omega)]
  · rw [if_neg hn, if_neg hn]

theorem isSpaceCode_lowerCode (n : Nat) : isSpaceCode (lowerCode n) = isSpaceCode n := by
  unfold lowerCode isSpaceCode
  by_cases hn : 65 ≤ n ∧ n ≤ 90
  · rw [if_pos hn, decide_eq_false (by omega), decide_eq_false (by omega)]
  · rw [if_neg hn]

theorem dropWhile_map_comm (p : Nat → Bool) (f : Nat → Nat) (hp : ∀ a, p (f a) = p a)
    (l : PyStr) : List.dropWhile p (l.map f) = (List.dropWhile p l).map f := by
  induction l with
  | nil => rfl
  | cons a t ih =>
    simp only [List.map_cons, List.dropWhile_cons, hp a]
    cases ha : p a
    · simp
    · simpa using ih

theorem head?_dropWhile_false (p : Nat → Bool) (l : PyStr) :
    ∀ a, (List.dropWhile p l).head? = some a → p a = false := by
  induction l with
  | nil => intro a ha; simp [List.dropWhile] at ha
  | cons b t ih =>
    intro a ha
    rw [List.dropWhile_cons] at ha
    cases hb : p b
    · rw [hb] at ha
      simp only [Bool.false_eq_true, if_false, List.head?_cons, Option.some.injEq] at ha
      rw [← ha]
      exact hb
    · rw [hb] at ha
      simp only [if_true] at ha
      exact ih a ha

theorem dropWhile_eq_self_of_head? (p : Nat → Bool) (l : PyStr)
    (hl : ∀ a, l.head? = some a → p a = false) : List.dropWhile p l = l := by
  cases l with
  | nil => rfl
  | cons b t =>
    have hb := hl b rfl
    simp [List.dropWhile_cons, hb]

theorem head?_rdropWhile (p : Nat → Bool) (l : PyStr) :
    List.rdropWhile p l = [] ∨ (List.rdropWhile p l).head? = l.head? := by
  induction l using List.reverseRecOn with
  | nil => left; simp [List.rdropWhile]
  | append_singleton xs a ih =>
    cases ha : p a
    · right
      rw [List.rdropWhile_concat_neg p xs a (by simp [ha])]
    · rw [List.rdropWhile_concat_pos p xs a ha]
      rcases ih with h1 | h2
      · left; exact h1
      · cases xs with
        | nil =>
          left
          simp [List.rdropWhile]
        | cons b t =>
          right
          rw [h2]
          simp

theorem pyStrip_idem (l : PyStr) : pyStrip (pyStrip l) = pyStrip l := by
  unfold pyStrip
  have h1 : List.dropWhile isSpaceCode
      (List.rdropWhile isSpaceCode (List.dropWhile isSpaceCode l)) =
      List.rdropWhile isSpaceCode (List.dropWhile isSpaceCode l) := by
    apply dropWhile_eq_self_of_head?
    intro a ha
    rcases head?_rdropWhile isSpaceCode (List.dropWhile isSpaceCode l) with h | h
    · rw [h] at ha; simp at ha
    · rw [h] at ha
      exact head?_dropWhile_false isSpaceCode l a ha
  rw [h1, List.rdropWhile_idempotent]

theorem rdropWhile_map_comm (p : Nat → Bool) (f : Nat → Nat) (hp : ∀ a, p (f a) = p a)
    (l : PyStr) : List.rdropWhile p (l.map f) = (List.rdropWhile p l).map f := by
  unfold List.rdropWhile
  rw [← List.map_reverse, dropWhile_map_comm p f hp, List.map_reverse]

theorem pyLower_idem (l : PyStr) : pyLower (pyLower l) = pyLower l := by
  unfold pyLower
  rw [List.map_map]
  have hf : lowerCode ∘ lowerCode = lowerCode := funext lowerCode_idem
  rw [hf]

theorem pyLower_pyStrip_comm (l : PyStr) : pyLower (pyStrip l) = pyStrip (pyLower l) := by
  unfold pyLower pyStrip
  rw [dropWhile_map_comm isSpaceCode lowerCode isSpaceCode_lowerCode l,
    rdropWhile_map_comm isSpaceCode lowerCode isSpaceCode_lowerCode]

theorem pyNorm_idem (s : PyStr) : pyNorm (pyNorm s) = pyNorm s := by
  unfold pyNorm
  rw [pyLower_pyStrip_comm (pyLower s), pyLower_idem, pyStrip_idem]

theorem apply_gate_eq_h (c : QuantumCircuit) (t : Int) (ctl : Option Int) :
    apply_gate c (codes "h") t ctl = tryOr (c.hGate t) c := rfl

theorem apply_gate_eq_x (c : QuantumCircuit) (t : Int) (ctl : Option Int) :
    apply_gate c (codes "x") t ctl = tryOr (c.xGate t) c := rfl

theorem apply_gate_eq_y (c : QuantumCircuit) (t : Int) (ctl : Option Int) :
    apply_gate c (codes "y") t ctl = tryOr (c.yGate t) c := rfl

theorem apply_gate_eq_z (c : QuantumCircuit) (t : Int) (ctl : Option Int) :
    apply_gate c (codes "z") t ctl = tryOr (c.zGate t) c := rfl

theorem apply_gate_eq_cx_some (c : QuantumCircuit) (t ctl : Int) :
    apply_gate c (codes "cx") t (some ctl) = tryOr (c.cxGate ctl t) c := rfl

theorem apply_gate_eq_cx_none (c : QuantumCircuit) (t : Int) :
    apply_gate c (codes "cx") t none =
      if t < c.num_qubits - 1 then tryOr (c.cxGate t (t + 1)) c
      else tryOr (c.cxGate t 0) c := rfl

/-- C1: apply with tag cx and no control wires control = target and new
target = target + 1 when target is strictly below the last qubit index,
and control = target, new target = qubit 0 (wraparound) when target is the
last index; an explicitly supplied control is used as given with the given
target.  Stated on the operand ranges the external library accepts, where
the wiring is observable in the appended circuit data. -/
theorem C1_cx_wiring (c : QuantumCircuit) (t : Int) (h0 : 0 ≤ t) (hlt : t < c.num_qubits) :
    (t < c.num_qubits - 1 →
      apply_gate c (codes "cx") t none = { c with data := c.data ++ [GateOp.cx t (t + 1)] })
    ∧ (t = c.num_qubits - 1 → 2 ≤ c.num_qubits →
      apply_gate c (codes "cx") t none = { c with data := c.data ++ [GateOp.cx t 0] })
    ∧ (∀ ctl : Int, 0 ≤ ctl → ctl < c.num_qubits → ctl ≠ t →
      apply_gate c (codes "cx") t (some ctl) = { c with data := c.data ++ [GateOp.cx ctl t] }) := by
  refine ⟨?_, ?_, ?_⟩
  · intro hlt1
    rw [apply_gate_eq_cx_none, if_pos hlt1]
    unfold QuantumCircuit.cxGate
    rw [if_pos ⟨⟨h0, hlt⟩, ⟨by omega, by omega⟩, by omega⟩]
    rfl
  · intro heq h2
    rw [apply_gate_eq_cx_none, if_neg (by omega)]
    unfold QuantumCircuit.cxGate
    rw [if_pos ⟨⟨h0, hlt⟩, ⟨by omega, by omega⟩, by omega⟩]
    rfl
  · intro ctl hc0 hclt hne
    rw [apply_gate_eq_cx_some]
    unfold QuantumCircuit.cxGate
    rw [if_pos ⟨⟨hc0, hclt⟩, ⟨h0, hlt⟩, hne⟩]
    rfl

theorem C1_cx_wiring_witness :
    apply_gate { num_qubits := 3, data := [] } (codes "cx") 1 none
      = { num_qubits := 3, data := [GateOp.cx 1 2] }
    ∧ apply_gate { num_qubits := 3, data := [] } (codes "cx") 2 none
      = { num_qubits := 3, data := [GateOp.cx 2 0] }
    ∧ apply_gate { num_qubits := 3, data := [] } (codes "cx") 0 (some 2)
      = { num_qubits := 3, data := [GateOp.cx 2 0] } := by
  refine ⟨?_, ?_, ?_⟩
  · exact (C1_cx_wiring { num_qubits := 3, data := [] } 1 (by decide) (by decide)).1 (by decide)
  · exact (C1_cx_wiring { num_qubits := 3, data := [] } 2 (by decide) (by decide)).2.1
      (by decide) (by decide)
  · exact (C1_cx_wiring { num_qubits := 3, data := [] } 0 (by decide) (by decide)).2.2
      2 (by decide) (by decide) (by decide)

/-- C2: for every integer n, create with n > 0 yields a circuit with qubit
count n and gate count 0, and create with n <= 0 yields no handle. -/
theorem C2_create (n : Int) :
    (0 < n → ∃ c, create_circuit n = some c ∧ c.num_qubits = n ∧ c.data.length = 0)
    ∧ (n ≤ 0 → create_circuit n = none) := by
  constructor
  · intro hn
    refine ⟨{ num_qubits := n, data := [] }, ?_, rfl, rfl⟩
    unfold create_circuit
    rw [if_neg (by omega)]
  · intro hn
    unfold create_circuit
    rw [if_pos hn]

theorem C2_create_witness :
    (0 < (2 : Int) ∧ ∃ c, create_circuit 2 = some c ∧ c.num_qubits = 2 ∧ c.data.length = 0)
    ∧ ((-3 : Int) ≤ 0 ∧ create_circuit (-3) = none) :=
  ⟨⟨by decide, (C2_create 2).1 (by decide)⟩, ⟨by decide, (C2_create (-3)).2 (by decide)⟩⟩

/-- C4: an unrecognized gate tag leaves the circuit untouched: apply
returns the very circuit it was given, so the gate count is unchanged. -/
theorem C4_unknown_tag (c : QuantumCircuit) (tag : PyStr) (t : Int) (ctl : Option Int)
    (hu : ¬ (pyNorm tag = codes "h" ∨ pyNorm tag = codes "x" ∨ pyNorm tag = codes "y"
      ∨ pyNorm tag = codes "z" ∨ pyNorm tag = codes "cx")) :
    apply_gate c tag t ctl = c ∧ (apply_gate c tag t ctl).data.length = c.data.length := by
  have h1 : ¬ pyNorm tag = codes "h" := fun hh => hu (Or.inl hh)
  have h2 : ¬ pyNorm tag = codes "x" := fun hh => hu (Or.inr (Or.inl hh))
  have h3 : ¬ pyNorm tag = codes "y" := fun hh => hu (Or.inr (Or.inr (Or.inl hh)))
  have h4 : ¬ pyNorm tag = codes "z" := fun hh => hu (Or.inr (Or.inr (Or.inr (Or.inl hh))))
  have h5 : ¬ pyNorm tag = codes "cx" := fun hh => hu (Or.inr (Or.inr (Or.inr (Or.inr hh))))
  have key : apply_gate c tag t ctl = c := by
    unfold apply_gate dispatch
    rw [if_neg h1, if_neg h2, if_neg h3, if_neg h4, if_neg h5]
  exact ⟨key, by rw [key]⟩

theorem C4_unknown_tag_witness :
    apply_gate { num_qubits := 2, data := [GateOp.h 0] } (codes "foo") 0 none
      = { num_qubits := 2, data := [GateOp.h 0] }
    ∧ (apply_gate { num_qubits := 2, data := [GateOp.h 0] } (codes "foo") 0 none).data.length
      = ({ num_qubits := 2, data := [GateOp.h 0] } : QuantumCircuit).data.length :=
  C4_unknown_tag { num_qubits := 2, data := [GateOp.h 0] } (codes "foo") 0 none (by decide)

/-- C5: for every recognized tag, an out-of-range qubit operand makes the
library call fail; the failure is caught at the dispatch boundary and the
circuit comes back unmodified, with no exception reaching the caller. -/
theorem C5_out_of_range (c : QuantumCircuit) (t : Int) :
    (∀ tag : PyStr, (tag = codes "h" ∨ tag = codes "x" ∨ tag = codes "y" ∨ tag = codes "z") →
      (t < 0 ∨ c.num_qubits ≤ t) → ∀ ctl : Option Int, apply_gate c tag t ctl = c)
    ∧ (∀ ctl : Int, ((t < 0 ∨ c.num_qubits ≤ t) ∨ (ctl < 0 ∨ c.num_qubits ≤ ctl)) →
      apply_gate c (codes "cx") t (some ctl) = c)
    ∧ ((t < 0 ∨ c.num_qubits ≤ t) → apply_gate c (codes "cx") t none = c) := by
  refine ⟨?_, ?_, ?_⟩
  · rintro tag (rfl | rfl | rfl | rfl) hbad ctl
    · rw [apply_gate_eq_h]
      unfold QuantumCircuit.hGate
      rw [if_neg (by omega)]
      rfl
    · rw [apply_gate_eq_x]
      unfold QuantumCircuit.xGate
      rw [if_neg (by omega)]
      rfl
    · rw [apply_gate_eq_y]
      unfold QuantumCircuit.yGate
      rw [if_neg (by omega)]
      rfl
    · rw [apply_gate_eq_z]
      unfold QuantumCircuit.zGate
      rw [if_neg (by omega)]
      rfl
  · intro ctl hbad
    rw [apply_gate_eq_cx_some]
    unfold QuantumCircuit.cxGate
    rw [if_neg (by omega)]
    rfl
  · intro hbad
    rw [apply_gate_eq_cx_none]
    by_cases hc : t < c.num_qubits - 1
    · rw [if_pos hc]
      unfold QuantumCircuit.cxGate
      rw [if_neg (by omega)]
      rfl
    · rw [if_neg hc]
      unfold QuantumCircuit.cxGate
      rw [if_neg (by omega)]
      rfl

theorem C5_out_of_range_witness :
    apply_gate { num_qubits := 2, data := [] } (codes "h") 5 none
      = { num_qubits := 2, data := [] }
    ∧ apply_gate { num_qubits := 2, data := [] } (codes "cx") 0 (some 7)
      = { num_qubits := 2, data := [] }
    ∧ apply_gate { num_qubits := 2, data := [] } (codes "cx") (-1) none
      = { num_qubits := 2, data := [] } := by
  refine ⟨?_, ?_, ?_⟩
  · exact (C5_out_of_range { num_qubits := 2, data := [] } 5).1 (codes "h")
      (Or.inl rfl) (Or.inr (by decide)) none
  · exact (C5_out_of_range { num_qubits := 2, data := [] } 0).2.1 7
      (Or.inr (Or.inr (by decide)))
  · exact (C5_out_of_range { num_qubits := 2, data := [] } (-1)).2.2 (Or.inl (by decide))

/-- C8: every supported single-qubit tag applied at a valid target index
appends exactly one gate and leaves the qubit count unchanged. -/
theorem C8_single_gate (c : QuantumCircuit) (tag : PyStr)
    (htag : tag = codes "h" ∨ tag = codes "x" ∨ tag = codes "y" ∨ tag = codes "z")
    (t : Int) (h0 : 0 ≤ t) (hlt : t < c.num_qubits) (ctl : Option Int) :
    (apply_gate c tag t ctl).data.length = c.data.length + 1
    ∧ (apply_gate c tag t ctl).num_qubits = c.num_qubits := by
  rcases htag with rfl | rfl | rfl | rfl
  · rw [apply_gate_eq_h]
    unfold QuantumCircuit.hGate
    rw [if_pos ⟨h0, hlt⟩]
    exact ⟨by simp [tryOr], rfl⟩
  · rw [apply_gate_eq_x]
    unfold QuantumCircuit.xGate
    rw [if_pos ⟨h0, hlt⟩]
    exact ⟨by simp [tryOr], rfl⟩
  · rw [apply_gate_eq_y]
    unfold QuantumCircuit.yGate
    rw [if_pos ⟨h0, hlt⟩]
    exact ⟨by simp [tryOr], rfl⟩
  · rw [apply_gate_eq_z]
    unfold QuantumCircuit.zGate
    rw [if_pos ⟨h0, hlt⟩]
    exact ⟨by simp [tryOr], rfl⟩

theorem C8_single_gate_witness :
    (codes "h" = codes "h" ∨ codes "h" = codes "x" ∨ codes "h" = codes "y"
      ∨ codes "h" = codes "z")
    ∧ 0 ≤ (0 : Int)
    ∧ ((apply_gate { num_qubits := 2, data := [] } (codes "h") 0 none).data.length
        = ({ num_qubits := 2, data := [] } : QuantumCircuit).data.length + 1
      ∧ (apply_gate { num_qubits := 2, data := [] } (codes "h") 0 none).num_qubits
        = ({ num_qubits := 2, data := [] } : QuantumCircuit).num_qubits) := by
  refine ⟨Or.inl rfl, by decide, ?_⟩
  exact C8_single_gate { num_qubits := 2, data := [] } (codes "h") (Or.inl rfl) 0
    (by decide) (by decide) none

/-- C6 counterexample: apply_gate called with a non-string gate name (the
Python int 0) raises AttributeError outward, because the normalization on
line 38 runs before the try block; so the claim that apply never raises
outward for every gate-name value is false on the code. -/
theorem C6_counterexample :
    apply_gate_checked (some { num_qubits := 2, data := [] }) (PyVal.int 0) 0 none
      = Except.error PyError.attributeError := rfl

/-- C6 amended: create never raises outward for any argument value, and
apply never raises outward whenever the gate name is a string, for every
circuit value and operands; a non-string gate name raises AttributeError
from the normalization step that runs before the protected block. -/
theorem C6_never_raises_amended :
    (∀ v : PyVal, raisesOutward (create_circuit_checked v) = false)
    ∧ (∀ (c : Option QuantumCircuit) (s : PyStr) (t : Int) (ctl : Option Int),
        raisesOutward (apply_gate_checked c (PyVal.str s) t ctl) = false)
    ∧ (∀ (c : Option QuantumCircuit) (t : Int) (ctl : Option Int) (n : Int),
        apply_gate_checked c (PyVal.int n) t ctl = Except.error PyError.attributeError
        ∧ apply_gate_checked c PyVal.pyNone t ctl = Except.error PyError.attributeError) :=
  ⟨fun _ => rfl, fun _ _ _ _ => rfl, fun _ _ _ _ => ⟨rfl, rfl⟩⟩

/-- C9: at a concrete valid circuit, when the rich-image tier fails after
its figure was created, the call returns the fallback artifact but leaves
one figure open, because the except branch of line 132 never calls
plt.close; on the success path the figure is closed as the claim says. -/
theorem C9_figure_leak :
    (visualize_circuit (some { num_qubits := 2, data := [GateOp.h 0] })
      RenderEnv.failAfterFig).openFigures = 1
    ∧ (visualize_circuit (some { num_qubits := 2, data := [GateOp.h 0] })
      (RenderEnv.ok "png")).openFigures = 0 :=
  ⟨rfl, rfl⟩

/-- C10: gate-tag matching is insensitive to case and surrounding
whitespace: apply behaves on any gate name exactly as it behaves on the
lowercased and stripped name, so the uppercase tags are accepted. -/
theorem C10_tag_normalization (c : QuantumCircuit) (s : PyStr) (t : Int) (ctl : Option Int) :
    apply_gate c s t ctl = apply_gate c (pyNorm s) t ctl := by
  unfold apply_gate
  rw [pyNorm_idem]

set_option maxRecDepth 4000 in
/-- C3: render never fails outward: a None circuit short-circuits, for
every tier-2 behaviour, to the fixed plain error artifact (which carries
the error indicator and opens no figure), and every call on any input
returns a nonempty string. -/
theorem C3_render_never_fails :
    (∀ env : RenderEnv, visualize_circuit none env
      = { artifact := "❌ No circuit to visualize", openFigures := 0 })
    ∧ strContains "❌ No circuit to visualize" "❌"
    ∧ (∀ (circuit : Option QuantumCircuit) (env : RenderEnv),
      0 < (visualize_circuit circuit env).artifact.length) := by
  refine ⟨fun _ => rfl, ⟨"", " No circuit to visualize", by decide⟩, ?_⟩
  intro circuit env
  cases circuit with
  | none =>
    exact (by decide : 0 < ("❌ No circuit to visualize" : String).length)
  | some c =>
    cases env with
    | ok img =>
      show 0 < (html_output c img).length
      simp only [html_output]
      repeat apply length_pos_left
      decide
    | failBeforeFig =>
      show 0 < (text_html c (textDiagram c)).length
      simp only [text_html]
      repeat apply length_pos_left
      decide
    | failAfterFig =>
      show 0 < (text_html c (textDiagram c)).length
      simp only [text_html]
      repeat apply length_pos_left
      decide

set_option maxRecDepth 4000 in
/-- C7: when the rich-image tier fails (before or after its figure is
created) the artifact is the tier-3 text-as-html fragment, which carries
the qubit count, gate count and depth metrics; and on every tier outcome
the artifact is a nonempty string carrying the qubit and gate counts. -/
theorem C7_tier3_fallback (c : QuantumCircuit) :
    ((visualize_circuit (some c) RenderEnv.failBeforeFig).artifact = text_html c (textDiagram c)
      ∧ (visualize_circuit (some c) RenderEnv.failAfterFig).artifact = text_html c (textDiagram c))
    ∧ strContains (text_html c (textDiagram c)) (toString c.num_qubits)
    ∧ strContains (text_html c (textDiagram c)) (toString c.data.length)
    ∧ strContains (text_html c (textDiagram c)) (toString c.depth)
    ∧ (∀ env : RenderEnv, 0 < (visualize_circuit (some c) env).artifact.length
      ∧ strContains (visualize_circuit (some c) env).artifact (toString c.num_qubits)
      ∧ strContains (visualize_circuit (some c) env).artifact (toString c.data.length)) := by
  have hTq : strContains (text_html c (textDiagram c)) (toString c.num_qubits) := by
    simp only [text_html]
    apply strContains_appendl
    apply strContains_appendl
    apply strContains_appendl
    apply strContains_appendl
    apply strContains_appendl
    apply strContains_appendl
    apply strContains_appendl
    exact strContains_here _ _
  have hTg : strContains (text_html c (textDiagram c)) (toString c.data.length) := by
    simp only [text_html]
    apply strContains_appendl
    apply strContains_appendl
    apply strContains_appendl
    apply strContains_appendl
    exact strContains_here _ _
  have hTd : strContains (text_html c (textDiagram c)) (toString c.depth) := by
    simp only [text_html]
    apply strContains_appendl
    exact strContains_here _ _
  have hTpos : 0 < (text_html c (textDiagram c)).length := by
    simp only [text_html]
    repeat apply length_pos_left
    decide
  have hHq : ∀ img : String, strContains (html_output c img) (toString c.num_qubits) := by
    intro img
    simp only [html_output]
    apply strContains_appendl
    apply strContains_appendl
    apply strContains_appendl
    apply strContains_appendl
    apply strContains_appendl
    apply strContains_appendl
    apply strContains_appendl
    exact strContains_here _ _
  have hHg : ∀ img : String, strContains (html_output c img) (toString c.data.length) := by
    intro img
    simp only [html_output]
    apply strContains_appendl
    apply strContains_appendl
    apply strContains_appendl
    apply strContains_appendl
    exact strContains_here _ _
  have hHpos : ∀ img : String, 0 < (html_output c img).length := by
    intro img
    simp only [html_output]
    repeat apply length_pos_left
    decide
  refine ⟨⟨rfl, rfl⟩, hTq, hTg, hTd, ?_⟩
  intro env
  cases env with
  | ok img => exact ⟨hHpos img, hHq img, hHg img⟩
  | failBeforeFig => exact ⟨hTpos, hTq, hTg⟩
  | failAfterFig => exact ⟨hTpos, hTq, hTg⟩
